import Mathlib

/-!
Verification of the `thor.py` load-generation tool against its specification.

The source file `src/thor.py` implements only the CLI layer: the globals
`PROCESSES`, `REQUESTS`, `VERBOSE`, `URL`, the `usage` helper, and
`parse_cli_args`.  The entry point is empty, so the concurrent core
(Request Executor, Worker, Dispatcher, Aggregator) is modelled from the
specification where a claim needs it; those definitions carry a doc comment
starting with `Modelled from the spec:`.

The CLI embedding below is a direct translation of `parse_cli_args`:
command lines are `List String` (Python `sys.argv`), Python exceptions
become explicit result constructors, and Python `int(...)` is modelled by
`pythonInt`.
-/

namespace Thor

/-- Consume the tail of a Python decimal digit string: after an initial
digit, the remainder is digits with single underscores allowed only between
digits (`digitpart ::= digit (["_"] digit)*`, CPython 3 base-10 grammar for
`int`). -/
def pyDigitsAux : List Char → Nat → Option Nat
  | [], acc => some acc
  | '_' :: c :: rest, acc =>
      if c.isDigit then pyDigitsAux rest (acc * 10 + (c.toNat - 48)) else none
  | ['_'], _ => none
  | c :: rest, acc =>
      if c.isDigit then pyDigitsAux rest (acc * 10 + (c.toNat - 48)) else none

/-- Parse a nonempty Python decimal digit string (underscores between
digits allowed, base 10). -/
def pyDigits : List Char → Option Nat
  | [] => none
  | c :: rest => if c.isDigit then pyDigitsAux rest (c.toNat - 48) else none

/-- Strip leading and trailing whitespace characters, as Python `int`
does before parsing. -/
def pyStrip (l : List Char) : List Char :=
  ((l.dropWhile Char.isWhitespace).reverse.dropWhile Char.isWhitespace).reverse

/-- Behaviour of Python `int(s)` for a string argument: surrounding
whitespace is stripped, then an optional sign followed by a nonempty
decimal digit string is accepted; anything else raises `ValueError`
(modelled as `none`).  ASCII digits and whitespace model the inputs this
program meets. -/
def pythonInt (s : String) : Option Int :=
  match pyStrip s.toList with
  | '+' :: rest => (pyDigits rest).map Int.ofNat
  | '-' :: rest => (pyDigits rest).map (fun n => -(Int.ofNat n : Int))
  | l => (pyDigits l).map Int.ofNat

/-- The exception classes named by the `except` clauses in
`parse_cli_args` (lines 49-54 and 61-66 of `thor.py`). -/
inductive PyExc where
  | valueError
  | nameError
deriving DecidableEq, Repr

/-- Python `int(s)`: either the parsed value or the exception it raises.
`int` on a string raises `ValueError` on failure, never `NameError`. -/
def pyInt (s : String) : Int ⊕ PyExc :=
  match pythonInt s with
  | some n => Sum.inl n
  | none => Sum.inr PyExc.valueError

/-- The distinct messages printed on the error-exit paths of
`parse_cli_args`: the `NameError` and `ValueError` handlers of the `-p`
branch (lines 50 and 53) and of the `-r` branch (lines 62 and 65; the
source misspells "occured" there). -/
inductive Msg where
  | illegalProcess
  | errorOccurredP
  | illegalRequest
  | errorOccuredR
deriving DecidableEq, Repr

/-- The module-level globals of `thor.py` that `parse_cli_args` assigns
(lines 11-14): `PROCESSES = 1`, `REQUESTS = 1`, `VERBOSE = False`,
`URL = None`. -/
structure Globals where
  PROCESSES : Int
  REQUESTS : Int
  VERBOSE : Bool
  URL : Option String
deriving DecidableEq, Repr

/-- Observable outcome of running `parse_cli_args` on a command line:
`usageExit code` is `usage(code)` (print the usage text, `sys.exit(code)`);
`errorExit code msg` is a handler printing `msg` then `sys.exit(code)`;
`indexError` is an uncaught `IndexError` escaping the function (list
subscript out of range, caught by no `except` clause); `ok g` is normal
return with the globals holding `g`. -/
inductive ParseResult where
  | usageExit (code : Nat)
  | errorExit (code : Nat) (msg : Msg)
  | indexError
  | ok (g : Globals)
deriving DecidableEq, Repr

/-- The `try: ... int(v) ... except NameError ... except ValueError ...`
body shared by the two flag blocks: a parsed value updates the global, an
exception hits the matching handler, which prints its message and calls
`sys.exit(FAILURE)`. -/
def handleIntValue (v : String) (nameMsg valMsg : Msg) : Except ParseResult Int :=
  match pyInt v with
  | Sum.inl n => Except.ok n
  | Sum.inr PyExc.nameError => Except.error (ParseResult.errorExit 1 nameMsg)
  | Sum.inr PyExc.valueError => Except.error (ParseResult.errorExit 1 valMsg)

/-- One integer-flag block of `parse_cli_args` (the `-p` block, lines
43-54, and the `-r` block, lines 55-66, are identical up to the flag and
the messages): if the flag is in `argv`, find its first index, run the
guard `idx >= len(argv)` (which calls `usage(FAILURE)`), then try
`int(argv[idx+1])` — an out-of-range subscript raises `IndexError`, which
no `except` clause catches.  Returns the new value of the global, or the
exit/crash that ends the process. -/
def handleIntFlag (argv : List String) (flag : String) (nameMsg valMsg : Msg)
    (current : Int) : Except ParseResult Int :=
  if flag ∈ argv then
    if argv.length ≤ argv.indexOf flag then
      Except.error (ParseResult.usageExit 1)
    else
      match argv[argv.indexOf flag + 1]? with
      | none => Except.error ParseResult.indexError
      | some v => handleIntValue v nameMsg valMsg
  else Except.ok current

/-- The `-r` block (lines 55-66) followed by the normal return, given the
value `p` the `-p` block left in `PROCESSES`. -/
def parseR (argv : List String) (last : String) (p : Int) : ParseResult :=
  match handleIntFlag argv "-r" Msg.illegalRequest Msg.errorOccuredR 1 with
  | Except.error r => r
  | Except.ok r =>
      ParseResult.ok { PROCESSES := p, REQUESTS := r,
                       VERBOSE := decide ("-v" ∈ argv), URL := some last }

/-- The body of `parse_cli_args` after `URL = argv[-1]` has found a last
element: the `-h` check (exit `SUCCESS`), the `-v` check, then the `-p`
and `-r` blocks in order. -/
def parseRest (argv : List String) (last : String) : ParseResult :=
  if "-h" ∈ argv then ParseResult.usageExit 0
  else
    match handleIntFlag argv "-p" Msg.illegalProcess Msg.errorOccurredP 1 with
    | Except.error r => r
    | Except.ok p => parseR argv last p

/-- `parse_cli_args` (lines 33-66 of `thor.py`): `URL = argv[-1]` (an
`IndexError` on an empty argv), then the flag handling; on normal
completion the globals hold the parsed values (`PROCESSES` and `REQUESTS`
default to 1). -/
def parse_cli_args (argv : List String) : ParseResult :=
  match argv.getLast? with
  | none => ParseResult.indexError
  | some last => parseRest argv last

example : pythonInt "abc" = none := by decide
example : pythonInt "0" = some 0 := by decide
example : pythonInt "-5" = some (-5) := by decide
example : pythonInt " 12 " = some 12 := by decide
example : pythonInt "1_0" = some 10 := by decide
example : pythonInt "" = none := by decide
example : pythonInt "+3" = some 3 := by decide
example : pythonInt "12.5" = none := by decide

example : parse_cli_args ["thor.py", "-h"] = ParseResult.usageExit 0 := by decide
example : parse_cli_args ["thor.py", "-p", "abc", "u"] =
    ParseResult.errorExit 1 Msg.errorOccurredP := by decide
example : parse_cli_args ["thor.py", "-p"] = ParseResult.indexError := by decide
example : parse_cli_args ["thor.py", "-p", "0", "u"] =
    ParseResult.ok ⟨0, 1, false, some "u"⟩ := by decide
example : parse_cli_args ["thor.py", "-v"] =
    ParseResult.ok ⟨1, 1, true, some "-v"⟩ := by decide
example : parse_cli_args ["thor.py", "u"] =
    ParseResult.ok ⟨1, 1, false, some "u"⟩ := by decide

/-! ## The core (spec-modelled)

The entry point of `thor.py` is empty: the Request Executor, Worker,
Dispatcher and Aggregator described by the spec are not implemented in the
source.  They are modelled here from the spec's component contracts
(sections 3 and 4).  Durations are natural numbers (e.g. milliseconds);
the environment's behaviour is an oracle giving the outcome of each
request attempt. -/

/-- Modelled from the spec: the error kinds of a failed request
(`RequestOutcome.errorKind` enum, spec section 3). -/
inductive ErrorKind where
  | Timeout
  | ConnectionError
  | HTTPError (statusCode : Nat)
  | Unknown
deriving DecidableEq, Repr

/-- Modelled from the spec: outcome of one request attempt
(spec section 3, `RequestOutcome`). -/
structure RequestOutcome where
  succeeded : Bool
  latency : Nat
  errorKind : Option ErrorKind
deriving DecidableEq, Repr

/-- Modelled from the spec: per-worker result tally (spec section 3,
`WorkerTally`); `failuresByKind` is the mapping from error kind to count. -/
structure WorkerTally where
  workerID : Nat
  attempted : Nat
  succeeded : Nat
  failed : Nat
  failuresByKind : ErrorKind → Nat
  totalLatency : Nat

/-- Modelled from the spec: the final merged summary (spec section 3,
`RunReport`); `throughput` is totalAttempted / wallClockElapsed, zero when
the elapsed duration is zero. -/
structure RunReport where
  totalAttempted : Nat
  totalSucceeded : Nat
  totalFailed : Nat
  failuresByKind : ErrorKind → Nat
  wallClockElapsed : Nat
  throughput : Rat

/-- Modelled from the spec: the validated run configuration
(spec section 3, `LoadConfig`); counts are the integers parsed by the CLI
layer. -/
structure LoadConfig where
  targetURL : String
  workerCount : Int
  requestsPerWorker : Int
  verbose : Bool
deriving DecidableEq, Repr

/-- Modelled from the spec: program-level run errors (spec section 7); only
`ConfigurationError` is needed by the claims. -/
inductive RunError where
  | configurationError
deriving DecidableEq, Repr

/-- An environment oracle: the outcome the network would give worker `w`'s
attempt number `i`.  It stands for the Request Executor's interaction with
the outside world (spec section 4.1: every failure mode is returned as
data, never as an exception). -/
def Env : Type := Nat → Nat → RequestOutcome

/-- Modelled from the spec: fold one `RequestOutcome` into a worker's
tally (spec section 4.2): every attempt increments `attempted` exactly
once, a success increments `succeeded`, a failure increments `failed` and
the failure's kind count. -/
def tallyStep (o : RequestOutcome) (t : WorkerTally) : WorkerTally :=
  if o.succeeded then
    { t with attempted := t.attempted + 1, succeeded := t.succeeded + 1,
             totalLatency := t.totalLatency + o.latency }
  else
    { t with attempted := t.attempted + 1, failed := t.failed + 1,
             failuresByKind := fun k =>
               if k = o.errorKind.getD ErrorKind.Unknown then
                 t.failuresByKind k + 1
               else t.failuresByKind k,
             totalLatency := t.totalLatency + o.latency }

/-- Modelled from the spec: `Worker.run` (spec section 4.2) performs
`requestsPerWorker` sequential request attempts, accumulating a tally that
starts at all-zero counts. -/
def workerRun (env : Env) (workerID : Nat) (requestsPerWorker : Nat) : WorkerTally :=
  (List.range requestsPerWorker).foldl (fun t i => tallyStep (env workerID i) t)
    { workerID := workerID, attempted := 0, succeeded := 0, failed := 0,
      failuresByKind := fun _ => 0, totalLatency := 0 }

/-- Modelled from the spec: a well-formed absolute URL (spec section 3
requires `targetURL` to be a valid absolute URL; the Dispatcher performs
this validation). -/
def urlWellFormed (s : String) : Bool :=
  "http://".toList.isPrefixOf s.toList || "https://".toList.isPrefixOf s.toList

/-- Modelled from the spec: the Dispatcher's config validation
(spec section 4.3): workerCount ≥ 1, requestsPerWorker ≥ 1, well-formed
target URL. -/
def configValid (c : LoadConfig) : Bool :=
  (1 ≤ c.workerCount) && (1 ≤ c.requestsPerWorker) && urlWellFormed c.targetURL

/-- Modelled from the spec: the Dispatcher spawns `workerCount` workers and
collects all their tallies, or fails fast with a configuration error
without starting any worker (spec section 4.3). -/
def dispatch (env : Env) (c : LoadConfig) : Except RunError (List WorkerTally) :=
  if configValid c then
    Except.ok ((List.range c.workerCount.toNat).map fun i =>
      workerRun env i c.requestsPerWorker.toNat)
  else Except.error RunError.configurationError

/-- Total number of request attempts actually executed by a run: zero when
the Dispatcher fails fast, otherwise the attempts of every spawned
worker. -/
def requestsExecuted (env : Env) (c : LoadConfig) : Nat :=
  match dispatch env c with
  | Except.error _ => 0
  | Except.ok ts => (ts.map WorkerTally.attempted).sum

/-- Modelled from the spec: the Aggregator (spec section 4.4) — a pure
function summing the tallies' counts, merging `failuresByKind` by summing
per kind, and computing throughput with the zero-elapsed guard. -/
def aggregate (tallies : List WorkerTally) (elapsed : Nat) : RunReport :=
  { totalAttempted := (tallies.map WorkerTally.attempted).sum
    totalSucceeded := (tallies.map WorkerTally.succeeded).sum
    totalFailed := (tallies.map WorkerTally.failed).sum
    failuresByKind := fun k => (tallies.map fun t => t.failuresByKind k).sum
    wallClockElapsed := elapsed
    throughput :=
      if elapsed = 0 then 0
      else ((tallies.map WorkerTally.attempted).sum : Rat) / (elapsed : Rat) }

/-- Modelled from the spec: `runLoad` (spec section 4.3) — validate,
dispatch, join, aggregate. -/
def runLoad (env : Env) (elapsed : Nat) (c : LoadConfig) : Except RunError RunReport :=
  match dispatch env c with
  | Except.error e => Except.error e
  | Except.ok ts => Except.ok (aggregate ts elapsed)

/-- Modelled from the spec: process exit code of a run (spec section 6):
0 on successful completion, 1 on a configuration error. -/
def runExitCode (r : Except RunError RunReport) : Nat :=
  match r with
  | Except.error _ => 1
  | Except.ok _ => 0

/-- The `LoadConfig` the CLI layer hands to the Dispatcher, read off the
globals set by `parse_cli_args` (spec section 2 data flow). -/
def mkConfig (g : Globals) : LoadConfig :=
  { targetURL := g.URL.getD "", workerCount := g.PROCESSES,
    requestsPerWorker := g.REQUESTS, verbose := g.VERBOSE }

/-- A demonstration environment in which every request succeeds with a
10ms latency. -/
def envDemo : Env := fun _ _ => { succeeded := true, latency := 10, errorKind := none }

/-! ## Helper lemmas -/

theorem pyInt_of_some {s : String} {n : Int} (h : pythonInt s = some n) :
    pyInt s = Sum.inl n := by
  unfold pyInt; rw [h]

theorem pyInt_of_none {s : String} (h : pythonInt s = none) :
    pyInt s = Sum.inr PyExc.valueError := by
  unfold pyInt; rw [h]

theorem pyInt_cases (s : String) :
    (∃ n, pyInt s = Sum.inl n) ∨ pyInt s = Sum.inr PyExc.valueError := by
  unfold pyInt
  cases pythonInt s with
  | none => right; rfl
  | some n => left; exact ⟨n, rfl⟩

theorem mem_indexOf_lt_length {a : String} {l : List String} (h : a ∈ l) :
    l.indexOf a < l.length := by
  induction l with
  | nil => cases h
  | cons b l ih =>
    rw [List.indexOf_cons]
    cases hba : b == a with
    | true => simp
    | false =>
      have hne : a ≠ b := fun e => by simp [e] at hba
      have hm : a ∈ l := by
        cases List.mem_cons.mp h with
        | inl e => exact absurd e hne
        | inr m => exact m
      simp only [cond_false]
      have := ih hm
      simp only [List.length_cons]
      omega

theorem handleIntValue_bad {v : String} {m1 m2 : Msg} (hn : pythonInt v = none) :
    handleIntValue v m1 m2 = Except.error (ParseResult.errorExit 1 m2) := by
  unfold handleIntValue; rw [pyInt_of_none hn]

theorem handleIntValue_ok {v : String} {n : Int} {m1 m2 : Msg}
    (hn : pythonInt v = some n) : handleIntValue v m1 m2 = Except.ok n := by
  unfold handleIntValue; rw [pyInt_of_some hn]

theorem handleIntValue_error_cases {v : String} {m1 m2 : Msg} {r : ParseResult}
    (h : handleIntValue v m1 m2 = Except.error r) :
    r = ParseResult.errorExit 1 m2 := by
  rcases pyInt_cases v with ⟨n, hp⟩ | hp <;> unfold handleIntValue at h <;>
    rw [hp] at h
  · exact Except.noConfusion h
  · injection h with h; exact h.symm

theorem handleIntFlag_not_mem {argv : List String} {flag : String} {m1 m2 : Msg}
    {cur : Int} (h : flag ∉ argv) :
    handleIntFlag argv flag m1 m2 cur = Except.ok cur := by
  unfold handleIntFlag; rw [if_neg h]

theorem handleIntFlag_missing_value {argv : List String} {flag : String}
    {m1 m2 : Msg} {cur : Int} (h : flag ∈ argv)
    (hnone : argv[argv.indexOf flag + 1]? = none) :
    handleIntFlag argv flag m1 m2 cur = Except.error ParseResult.indexError := by
  have hlt := mem_indexOf_lt_length h
  unfold handleIntFlag
  rw [if_pos h, if_neg (by omega), hnone]

theorem handleIntFlag_value_bad {argv : List String} {flag v : String}
    {m1 m2 : Msg} {cur : Int} (h : flag ∈ argv)
    (hv : argv[argv.indexOf flag + 1]? = some v) (hn : pythonInt v = none) :
    handleIntFlag argv flag m1 m2 cur = Except.error (ParseResult.errorExit 1 m2) := by
  have hlt := mem_indexOf_lt_length h
  unfold handleIntFlag
  rw [if_pos h, if_neg (by omega), hv]
  exact handleIntValue_bad hn

theorem handleIntFlag_value_ok {argv : List String} {flag v : String} {n : Int}
    {m1 m2 : Msg} {cur : Int} (h : flag ∈ argv)
    (hv : argv[argv.indexOf flag + 1]? = some v) (hn : pythonInt v = some n) :
    handleIntFlag argv flag m1 m2 cur = Except.ok n := by
  have hlt := mem_indexOf_lt_length h
  unfold handleIntFlag
  rw [if_pos h, if_neg (by omega), hv]
  exact handleIntValue_ok hn

theorem handleIntFlag_error_cases {argv : List String} {flag : String}
    {m1 m2 : Msg} {cur : Int} {r : ParseResult}
    (h : handleIntFlag argv flag m1 m2 cur = Except.error r) :
    r = ParseResult.indexError ∨ r = ParseResult.errorExit 1 m2 := by
  by_cases hm : flag ∈ argv
  · have hlt := mem_indexOf_lt_length hm
    unfold handleIntFlag at h
    rw [if_pos hm, if_neg (by omega)] at h
    cases hg : argv[argv.indexOf flag + 1]? with
    | none =>
      rw [hg] at h
      have h2 : (Except.error ParseResult.indexError : Except ParseResult Int) =
          Except.error r := h
      injection h2 with h2
      exact Or.inl h2.symm
    | some v =>
      rw [hg] at h
      have h2 : handleIntValue v m1 m2 = Except.error r := h
      exact Or.inr (handleIntValue_error_cases h2)
  · rw [handleIntFlag_not_mem hm] at h; exact Except.noConfusion h

theorem parse_eq_rest {argv : List String} {last : String}
    (hl : argv.getLast? = some last) :
    parse_cli_args argv = parseRest argv last := by
  unfold parse_cli_args; rw [hl]

theorem parse_of_nil {argv : List String} (hl : argv.getLast? = none) :
    parse_cli_args argv = ParseResult.indexError := by
  unfold parse_cli_args; rw [hl]

theorem parseRest_h {argv : List String} {last : String} (hh : "-h" ∈ argv) :
    parseRest argv last = ParseResult.usageExit 0 := by
  unfold parseRest; rw [if_pos hh]

theorem parseRest_p_error {argv : List String} {last : String} {r : ParseResult}
    (hh : "-h" ∉ argv)
    (hp : handleIntFlag argv "-p" Msg.illegalProcess Msg.errorOccurredP 1 =
      Except.error r) :
    parseRest argv last = r := by
  unfold parseRest; rw [if_neg hh, hp]

theorem parseRest_p_ok {argv : List String} {last : String} {p : Int}
    (hh : "-h" ∉ argv)
    (hp : handleIntFlag argv "-p" Msg.illegalProcess Msg.errorOccurredP 1 =
      Except.ok p) :
    parseRest argv last = parseR argv last p := by
  unfold parseRest; rw [if_neg hh, hp]

theorem parseR_error {argv : List String} {last : String} {p : Int}
    {r : ParseResult}
    (hr : handleIntFlag argv "-r" Msg.illegalRequest Msg.errorOccuredR 1 =
      Except.error r) :
    parseR argv last p = r := by
  unfold parseR; rw [hr]

theorem parseR_ok {argv : List String} {last : String} {p r : Int}
    (hr : handleIntFlag argv "-r" Msg.illegalRequest Msg.errorOccuredR 1 =
      Except.ok r) :
    parseR argv last p = ParseResult.ok
      { PROCESSES := p, REQUESTS := r, VERBOSE := decide ("-v" ∈ argv),
        URL := some last } := by
  unfold parseR; rw [hr]

theorem parse_ok_inversion {argv : List String} {g : Globals}
    (h : parse_cli_args argv = ParseResult.ok g) :
    ∃ last p r, argv.getLast? = some last ∧ "-h" ∉ argv ∧
      handleIntFlag argv "-p" Msg.illegalProcess Msg.errorOccurredP 1 = Except.ok p ∧
      handleIntFlag argv "-r" Msg.illegalRequest Msg.errorOccuredR 1 = Except.ok r ∧
      g = ⟨p, r, decide ("-v" ∈ argv), some last⟩ := by
  cases hl : argv.getLast? with
  | none => rw [parse_of_nil hl] at h; exact ParseResult.noConfusion h
  | some last =>
    rw [parse_eq_rest hl] at h
    by_cases hh : "-h" ∈ argv
    · rw [parseRest_h hh] at h; exact ParseResult.noConfusion h
    · cases hp : handleIntFlag argv "-p" Msg.illegalProcess Msg.errorOccurredP 1 with
      | error r =>
        rw [parseRest_p_error hh hp] at h
        rcases handleIntFlag_error_cases hp with e | e <;> subst e <;>
          exact ParseResult.noConfusion h
      | ok p =>
        rw [parseRest_p_ok hh hp] at h
        cases hr : handleIntFlag argv "-r" Msg.illegalRequest Msg.errorOccuredR 1 with
        | error r =>
          rw [parseR_error hr] at h
          rcases handleIntFlag_error_cases hr with e | e <;> subst e <;>
            exact ParseResult.noConfusion h
        | ok r =>
          rw [parseR_ok hr] at h
          injection h with h
          exact ⟨last, p, r, rfl, hh, rfl, rfl, h.symm⟩

theorem parse_cases (argv : List String) :
    parse_cli_args argv = ParseResult.indexError ∨
    parse_cli_args argv = ParseResult.usageExit 0 ∨
    parse_cli_args argv = ParseResult.errorExit 1 Msg.errorOccurredP ∨
    parse_cli_args argv = ParseResult.errorExit 1 Msg.errorOccuredR ∨
    ∃ g, parse_cli_args argv = ParseResult.ok g := by
  cases hl : argv.getLast? with
  | none => left; exact parse_of_nil hl
  | some last =>
    rw [parse_eq_rest hl]
    by_cases hh : "-h" ∈ argv
    · right; left; exact parseRest_h hh
    · cases hp : handleIntFlag argv "-p" Msg.illegalProcess Msg.errorOccurredP 1 with
      | error r =>
        rcases handleIntFlag_error_cases hp with e | e <;> subst e
        · left; exact parseRest_p_error hh hp
        · right; right; left; exact parseRest_p_error hh hp
      | ok p =>
        rw [parseRest_p_ok hh hp]
        cases hr : handleIntFlag argv "-r" Msg.illegalRequest Msg.errorOccuredR 1 with
        | error r =>
          rcases handleIntFlag_error_cases hr with e | e <;> subst e
          · left; exact parseR_error hr
          · right; right; right; left; exact parseR_error hr
        | ok r =>
          right; right; right; right
          exact ⟨_, parseR_ok hr⟩

theorem tallyStep_attempted (o : RequestOutcome) (t : WorkerTally) :
    (tallyStep o t).attempted = t.attempted + 1 := by
  unfold tallyStep; split <;> rfl

theorem tallyStep_succ_add_failed (o : RequestOutcome) (t : WorkerTally) :
    (tallyStep o t).succeeded + (tallyStep o t).failed =
      t.succeeded + t.failed + 1 := by
  unfold tallyStep; split <;> simp <;> omega

theorem foldl_tally_attempted (env : Env) (w : Nat) (l : List Nat) :
    ∀ t : WorkerTally,
      (l.foldl (fun t i => tallyStep (env w i) t) t).attempted =
        t.attempted + l.length := by
  induction l with
  | nil => intro t; rfl
  | cons a l ih =>
    intro t
    rw [List.foldl_cons, ih, tallyStep_attempted, List.length_cons]
    omega

theorem foldl_tally_succ_add_failed (env : Env) (w : Nat) (l : List Nat) :
    ∀ t : WorkerTally,
      (l.foldl (fun t i => tallyStep (env w i) t) t).succeeded +
        (l.foldl (fun t i => tallyStep (env w i) t) t).failed =
        t.succeeded + t.failed + l.length := by
  induction l with
  | nil => intro t; rfl
  | cons a l ih =>
    intro t
    rw [List.foldl_cons, ih, tallyStep_succ_add_failed, List.length_cons]
    omega

theorem workerRun_attempted (env : Env) (w n : Nat) :
    (workerRun env w n).attempted = n := by
  unfold workerRun
  rw [foldl_tally_attempted, List.length_range]
  simp

theorem workerRun_succ_add_failed (env : Env) (w n : Nat) :
    (workerRun env w n).succeeded + (workerRun env w n).failed = n := by
  unfold workerRun
  rw [foldl_tally_succ_add_failed, List.length_range]
  simp

theorem sum_map_attempted (env : Env) (n : Nat) (l : List Nat) :
    (((l.map fun i => workerRun env i n).map WorkerTally.attempted)).sum =
      l.length * n := by
  induction l with
  | nil => simp
  | cons a l ih =>
    rw [List.map_cons, List.map_cons, List.sum_cons, ih, workerRun_attempted,
        List.length_cons]
    ring

theorem sum_map_succ_add_failed (env : Env) (n : Nat) (l : List Nat) :
    ((l.map fun i => workerRun env i n).map WorkerTally.succeeded).sum +
      ((l.map fun i => workerRun env i n).map WorkerTally.failed).sum =
      ((l.map fun i => workerRun env i n).map WorkerTally.attempted).sum := by
  induction l with
  | nil => rfl
  | cons a l ih =>
    simp only [List.map_cons, List.sum_cons]
    have := workerRun_succ_add_failed env a n
    have := workerRun_attempted env a n
    omega

theorem configValid_iff (c : LoadConfig) :
    configValid c = true ↔
      1 ≤ c.workerCount ∧ 1 ≤ c.requestsPerWorker ∧
        urlWellFormed c.targetURL = true := by
  unfold configValid
  simp [Bool.and_eq_true, decide_eq_true_eq, and_assoc]

theorem dispatch_invalid {c : LoadConfig} (h : configValid c = false) (env : Env) :
    dispatch env c = Except.error RunError.configurationError := by
  unfold dispatch; rw [h]; rfl

theorem dispatch_valid {c : LoadConfig} (h : configValid c = true) (env : Env) :
    dispatch env c = Except.ok ((List.range c.workerCount.toNat).map fun i =>
      workerRun env i c.requestsPerWorker.toNat) := by
  unfold dispatch; rw [h]; rfl

/-! ## Claims about the CLI layer -/

/-- Claim C3 (code bug): with `-p` as the final token, `parse_cli_args`
does not print a message and exit with code 1 — the `p_idx >= len(argv)`
guard never fires (the index of a present element is always below the
length), and the access `argv[p_idx+1]` raises an `IndexError` that no
handler catches. -/
theorem c3_missing_value_uncaught_index_error :
    parse_cli_args ["thor.py", "-p"] = ParseResult.indexError := by decide

/-- Claim C5: every command line containing `-h` prints the usage text and
exits with code 0 (SUCCESS). -/
theorem c5_help_prints_usage_exits_success :
    ∀ argv : List String, "-h" ∈ argv →
      parse_cli_args argv = ParseResult.usageExit 0 := by
  intro argv h
  cases hl : argv.getLast? with
  | none =>
    rw [List.getLast?_eq_none_iff] at hl
    subst hl; cases h
  | some last => rw [parse_eq_rest hl]; exact parseRest_h h

/-- Witness for C5 at the concrete command line `thor.py -h`. -/
theorem c5_witness : parse_cli_args ["thor.py", "-h"] = ParseResult.usageExit 0 :=
  c5_help_prints_usage_exits_success ["thor.py", "-h"] (by decide)

/-- Claim C6: when `-p` is absent the parsed worker count is the default 1,
and when `-r` is absent the parsed requests-per-worker is the default 1. -/
theorem c6_defaults_are_one :
    ∀ (argv : List String) (g : Globals),
      parse_cli_args argv = ParseResult.ok g →
      ("-p" ∉ argv → g.PROCESSES = 1) ∧ ("-r" ∉ argv → g.REQUESTS = 1) := by
  intro argv g h
  obtain ⟨last, p, r, hl, hh, hp, hr, hg⟩ := parse_ok_inversion h
  subst hg
  constructor
  · intro hnp
    rw [handleIntFlag_not_mem hnp] at hp
    injection hp with hp
    exact hp.symm
  · intro hnr
    rw [handleIntFlag_not_mem hnr] at hr
    injection hr with hr
    exact hr.symm

/-- Witness for C6 at the concrete command line `thor.py http://x`. -/
theorem c6_witness :
    Globals.PROCESSES ⟨1, 1, false, some "http://x"⟩ = 1 ∧
    Globals.REQUESTS ⟨1, 1, false, some "http://x"⟩ = 1 :=
  ⟨(c6_defaults_are_one ["thor.py", "http://x"] ⟨1, 1, false, some "http://x"⟩
      (by decide)).1 (by decide),
   (c6_defaults_are_one ["thor.py", "http://x"] ⟨1, 1, false, some "http://x"⟩
      (by decide)).2 (by decide)⟩

/-- Counterexample to claim C1 as stated: on `thor.py -h -p abc http://x`
the token after `-p` is `abc`, which is not parseable as an integer, yet
the program prints the usage text and exits with code 0 — the `-h` check
runs first, so no error message and no exit code 1. -/
theorem c1_counterexample :
    parse_cli_args ["thor.py", "-h", "-p", "abc", "http://x"] =
      ParseResult.usageExit 0 := by decide

/-- Claim C1 (amended): on every command line without `-h` in which the
token after the first `-p` is present but not parseable as a Python
integer, the program prints an error message and exits with code 1 via
the `ValueError` handler, never reaching the core; likewise for `-r`,
provided the `-p` block (if any) parsed its own value. -/
theorem c1_bad_value_error_exit :
    (∀ (argv : List String) (v : String), "-h" ∉ argv → "-p" ∈ argv →
      argv[argv.indexOf "-p" + 1]? = some v → pythonInt v = none →
      parse_cli_args argv = ParseResult.errorExit 1 Msg.errorOccurredP) ∧
    (∀ (argv : List String) (v : String), "-h" ∉ argv → "-p" ∉ argv →
      "-r" ∈ argv → argv[argv.indexOf "-r" + 1]? = some v → pythonInt v = none →
      parse_cli_args argv = ParseResult.errorExit 1 Msg.errorOccuredR) ∧
    (∀ (argv : List String) (w v : String) (n : Int), "-h" ∉ argv →
      "-p" ∈ argv → argv[argv.indexOf "-p" + 1]? = some w → pythonInt w = some n →
      "-r" ∈ argv → argv[argv.indexOf "-r" + 1]? = some v → pythonInt v = none →
      parse_cli_args argv = ParseResult.errorExit 1 Msg.errorOccuredR) := by
  refine ⟨?_, ?_, ?_⟩
  · intro argv v hh hp hv hn
    obtain ⟨last, hl⟩ := Option.isSome_iff_exists.mp
      (List.getLast?_isSome.mpr (List.ne_nil_of_mem hp))
    rw [parse_eq_rest hl]
    exact parseRest_p_error hh (handleIntFlag_value_bad hp hv hn)
  · intro argv v hh hnp hr hv hn
    obtain ⟨last, hl⟩ := Option.isSome_iff_exists.mp
      (List.getLast?_isSome.mpr (List.ne_nil_of_mem hr))
    rw [parse_eq_rest hl, parseRest_p_ok hh (handleIntFlag_not_mem hnp)]
    exact parseR_error (handleIntFlag_value_bad hr hv hn)
  · intro argv w v n hh hp hw hwn hr hv hn
    obtain ⟨last, hl⟩ := Option.isSome_iff_exists.mp
      (List.getLast?_isSome.mpr (List.ne_nil_of_mem hp))
    rw [parse_eq_rest hl, parseRest_p_ok hh (handleIntFlag_value_ok hp hw hwn)]
    exact parseR_error (handleIntFlag_value_bad hr hv hn)

/-- Witness for the amended C1 at the concrete command lines
`thor.py -p abc http://x` and `thor.py -r xyz http://x`. -/
theorem c1_witness :
    parse_cli_args ["thor.py", "-p", "abc", "http://x"] =
      ParseResult.errorExit 1 Msg.errorOccurredP ∧
    parse_cli_args ["thor.py", "-r", "xyz", "http://x"] =
      ParseResult.errorExit 1 Msg.errorOccuredR :=
  ⟨c1_bad_value_error_exit.1 ["thor.py", "-p", "abc", "http://x"] "abc"
      (by decide) (by decide) (by decide) (by decide),
   c1_bad_value_error_exit.2.1 ["thor.py", "-r", "xyz", "http://x"] "xyz"
      (by decide) (by decide) (by decide) (by decide) (by decide)⟩

/-- Counterexample to claim C4 as stated: on `thor.py -v` the value
consumed as the target URL is `-v` itself — the option token, not a
positional argument distinct from the options (and no positional argument
is required to be present at all). -/
theorem c4_counterexample :
    parse_cli_args ["thor.py", "-v"] =
      ParseResult.ok ⟨1, 1, true, some "-v"⟩ := by decide

/-- Claim C4 (amended): the target URL consumed by the program is the last
element of argv, taken verbatim with no syntax validation; nothing ensures
it is distinct from an option token or an option value, nor that a
positional argument is present. -/
theorem c4_url_is_last_argv_element :
    ∀ (argv : List String) (g : Globals),
      parse_cli_args argv = ParseResult.ok g → g.URL = argv.getLast? := by
  intro argv g h
  obtain ⟨last, p, r, hl, hh, hp, hr, hg⟩ := parse_ok_inversion h
  subst hg
  exact hl.symm

/-- Witness for the amended C4 at the concrete command line
`thor.py http://x`. -/
theorem c4_witness :
    Globals.URL ⟨1, 1, false, some "http://x"⟩ =
      ["thor.py", "http://x"].getLast? :=
  c4_url_is_last_argv_element ["thor.py", "http://x"]
    ⟨1, 1, false, some "http://x"⟩ (by decide)

/-- Claim C9: whenever `-p` (resp. `-r`) occurs in argv its first index is
strictly below the length, so the `p_idx >= len(argv)` guards can never
fire — every usage exit carries code 0 (the `-h` path), and
`usage(FAILURE)` is unreachable.  When the flag's first occurrence is the
final token (and `-h` is absent), the access at index `idx+1` raises the
uncaught `IndexError` instead. -/
theorem c9_guard_dead_index_error_instead :
    (∀ argv : List String, "-p" ∈ argv → argv.indexOf "-p" < argv.length) ∧
    (∀ argv : List String, "-r" ∈ argv → argv.indexOf "-r" < argv.length) ∧
    (∀ (argv : List String) (c : Nat),
      parse_cli_args argv = ParseResult.usageExit c → c = 0) ∧
    (∀ argv : List String, "-h" ∉ argv → "-p" ∈ argv →
      argv[argv.indexOf "-p" + 1]? = none →
      parse_cli_args argv = ParseResult.indexError) ∧
    (∀ argv : List String, "-h" ∉ argv → "-p" ∉ argv → "-r" ∈ argv →
      argv[argv.indexOf "-r" + 1]? = none →
      parse_cli_args argv = ParseResult.indexError) ∧
    (∀ (argv : List String) (w : String) (n : Int), "-h" ∉ argv →
      "-p" ∈ argv → argv[argv.indexOf "-p" + 1]? = some w → pythonInt w = some n →
      "-r" ∈ argv → argv[argv.indexOf "-r" + 1]? = none →
      parse_cli_args argv = ParseResult.indexError) := by
  refine ⟨fun argv h => mem_indexOf_lt_length h,
          fun argv h => mem_indexOf_lt_length h, ?_, ?_, ?_, ?_⟩
  · intro argv c h
    rcases parse_cases argv with e | e | e | e | ⟨g, e⟩ <;> rw [e] at h
    · exact ParseResult.noConfusion h
    · injection h with h; exact h.symm
    · exact ParseResult.noConfusion h
    · exact ParseResult.noConfusion h
    · exact ParseResult.noConfusion h
  · intro argv hh hp hnone
    obtain ⟨last, hl⟩ := Option.isSome_iff_exists.mp
      (List.getLast?_isSome.mpr (List.ne_nil_of_mem hp))
    rw [parse_eq_rest hl]
    exact parseRest_p_error hh (handleIntFlag_missing_value hp hnone)
  · intro argv hh hnp hr hnone
    obtain ⟨last, hl⟩ := Option.isSome_iff_exists.mp
      (List.getLast?_isSome.mpr (List.ne_nil_of_mem hr))
    rw [parse_eq_rest hl, parseRest_p_ok hh (handleIntFlag_not_mem hnp)]
    exact parseR_error (handleIntFlag_missing_value hr hnone)
  · intro argv w n hh hp hw hwn hr hnone
    obtain ⟨last, hl⟩ := Option.isSome_iff_exists.mp
      (List.getLast?_isSome.mpr (List.ne_nil_of_mem hp))
    rw [parse_eq_rest hl, parseRest_p_ok hh (handleIntFlag_value_ok hp hw hwn)]
    exact parseR_error (handleIntFlag_missing_value hr hnone)

/-- Witness for C9 at concrete inputs: `-p` at the final position of
`thor.py -p` has index 1 < 2, and parsing ends in the uncaught
`IndexError`; the one reachable usage exit (`thor.py -h`) carries
code 0. -/
theorem c9_witness :
    (["thor.py", "-p"].indexOf "-p" < ["thor.py", "-p"].length) ∧
    parse_cli_args ["thor.py", "-p"] = ParseResult.indexError ∧
    (0 : Nat) = 0 :=
  ⟨c9_guard_dead_index_error_instead.1 ["thor.py", "-p"] (by decide),
   c9_guard_dead_index_error_instead.2.2.2.1 ["thor.py", "-p"]
     (by decide) (by decide) (by decide),
   c9_guard_dead_index_error_instead.2.2.1 ["thor.py", "-h"] 0 (by decide)⟩

/-- Claim C10: `int()` on a string either parses or raises `ValueError`,
never `NameError`, so the `except NameError` handlers are unreachable:
every error exit of `parse_cli_args` carries exit code 1 and one of the
two `ValueError`-handler messages — the `NameError`-handler messages can
never be printed. -/
theorem c10_nameError_handlers_unreachable :
    (∀ s : String, (∃ n, pyInt s = Sum.inl n) ∨ pyInt s = Sum.inr PyExc.valueError) ∧
    (∀ (argv : List String) (c : Nat) (m : Msg),
      parse_cli_args argv = ParseResult.errorExit c m →
      c = 1 ∧ (m = Msg.errorOccurredP ∨ m = Msg.errorOccuredR)) := by
  refine ⟨pyInt_cases, ?_⟩
  intro argv c m h
  rcases parse_cases argv with e | e | e | e | ⟨g, e⟩ <;> rw [e] at h
  · exact ParseResult.noConfusion h
  · exact ParseResult.noConfusion h
  · injection h with h1 h2; exact ⟨h1.symm, Or.inl h2.symm⟩
  · injection h with h1 h2; exact ⟨h1.symm, Or.inr h2.symm⟩
  · exact ParseResult.noConfusion h

/-- Witness for C10 at the concrete input `abc` and the concrete command
line `thor.py -p abc http://x`. -/
theorem c10_witness :
    ((∃ n, pyInt "abc" = Sum.inl n) ∨ pyInt "abc" = Sum.inr PyExc.valueError) ∧
    ((1 : Nat) = 1 ∧ (Msg.errorOccurredP = Msg.errorOccurredP ∨
      Msg.errorOccurredP = Msg.errorOccuredR)) :=
  ⟨c10_nameError_handlers_unreachable.1 "abc",
   c10_nameError_handlers_unreachable.2 ["thor.py", "-p", "abc", "http://x"]
     1 Msg.errorOccurredP (by decide)⟩

/-! ## Claims about the core -/

theorem runLoad_invalid {c : LoadConfig} (h : configValid c = false)
    (env : Env) (elapsed : Nat) :
    runLoad env elapsed c = Except.error RunError.configurationError := by
  unfold runLoad; rw [dispatch_invalid h]

theorem runLoad_valid {c : LoadConfig} (h : configValid c = true)
    (env : Env) (elapsed : Nat) :
    runLoad env elapsed c = Except.ok
      (aggregate ((List.range c.workerCount.toNat).map fun i =>
        workerRun env i c.requestsPerWorker.toNat) elapsed) := by
  unfold runLoad; rw [dispatch_valid h]

theorem requestsExecuted_invalid {c : LoadConfig} (h : configValid c = false)
    (env : Env) : requestsExecuted env c = 0 := by
  unfold requestsExecuted; rw [dispatch_invalid h]

/-- Claim C2: a non-positive worker count or requests-per-worker value
supplied via `-p` or `-r` and accepted by the CLI parser is a
configuration error: the run fails fast with exit code 1 before any work
starts, and zero requests are executed. -/
theorem c2_nonpositive_counts_config_error :
    ∀ (argv : List String) (g : Globals) (env : Env) (elapsed : Nat),
      parse_cli_args argv = ParseResult.ok g →
      (g.PROCESSES ≤ 0 ∨ g.REQUESTS ≤ 0) →
      runLoad env elapsed (mkConfig g) = Except.error RunError.configurationError ∧
      runExitCode (runLoad env elapsed (mkConfig g)) = 1 ∧
      requestsExecuted env (mkConfig g) = 0 := by
  intro argv g env elapsed hparse hle
  have hv : configValid (mkConfig g) = false := by
    rcases hle with h | h
    · have hn : ¬ (1 ≤ g.PROCESSES) := by omega
      simp [configValid, mkConfig, hn]
    · have hn : ¬ (1 ≤ g.REQUESTS) := by omega
      simp [configValid, mkConfig, hn]
  refine ⟨runLoad_invalid hv env elapsed, ?_, requestsExecuted_invalid hv env⟩
  rw [runLoad_invalid hv env elapsed]
  rfl

/-- Witness for C2 at the concrete command line `thor.py -p 0 http://x`. -/
theorem c2_witness :
    runLoad envDemo 5 (mkConfig ⟨0, 1, false, some "http://x"⟩) =
      Except.error RunError.configurationError ∧
    runExitCode (runLoad envDemo 5 (mkConfig ⟨0, 1, false, some "http://x"⟩)) = 1 ∧
    requestsExecuted envDemo (mkConfig ⟨0, 1, false, some "http://x"⟩) = 0 :=
  c2_nonpositive_counts_config_error ["thor.py", "-p", "0", "http://x"]
    ⟨0, 1, false, some "http://x"⟩ envDemo 5 (by decide) (Or.inl (by decide))

/-- Claim C7: for every run started from a valid config, the report's
totalAttempted equals workerCount × requestsPerWorker, whatever the
individual outcomes — and every attempt is counted exactly once, as a
success or as a failure. -/
theorem c7_total_attempted_eq_product :
    ∀ (env : Env) (elapsed : Nat) (c : LoadConfig) (r : RunReport),
      runLoad env elapsed c = Except.ok r →
      ((r.totalAttempted : Int) = c.workerCount * c.requestsPerWorker ∧
       r.totalSucceeded + r.totalFailed = r.totalAttempted) := by
  intro env elapsed c r h
  cases hv : configValid c with
  | false => rw [runLoad_invalid hv] at h; exact Except.noConfusion h
  | true =>
    rw [runLoad_valid hv] at h
    injection h with h
    obtain ⟨hwc, hrpw, hurl⟩ := (configValid_iff c).mp hv
    subst h
    constructor
    · have ht : (aggregate ((List.range c.workerCount.toNat).map fun i =>
          workerRun env i c.requestsPerWorker.toNat) elapsed).totalAttempted =
          c.workerCount.toNat * c.requestsPerWorker.toNat := by
        simp only [aggregate]
        rw [sum_map_attempted, List.length_range]
      rw [ht, Nat.cast_mul, Int.toNat_of_nonneg (by omega),
          Int.toNat_of_nonneg (by omega)]
    · simp only [aggregate]
      exact sum_map_succ_add_failed env c.requestsPerWorker.toNat
        (List.range c.workerCount.toNat)

/-- A demonstration configuration: 2 workers, 3 requests per worker. -/
def cfgDemo : LoadConfig :=
  { targetURL := "http://example.com", workerCount := 2,
    requestsPerWorker := 3, verbose := false }

/-- The tallies a run under `cfgDemo` produces in the environment
`envDemo`. -/
def talliesDemo : List WorkerTally :=
  (List.range cfgDemo.workerCount.toNat).map fun i =>
    workerRun envDemo i cfgDemo.requestsPerWorker.toNat

/-- Witness for C7 at the concrete run of `cfgDemo` under `envDemo`. -/
theorem c7_witness :
    ((aggregate talliesDemo 5).totalAttempted : Int) =
      cfgDemo.workerCount * cfgDemo.requestsPerWorker ∧
    (aggregate talliesDemo 5).totalSucceeded +
      (aggregate talliesDemo 5).totalFailed =
      (aggregate talliesDemo 5).totalAttempted :=
  c7_total_attempted_eq_product envDemo 5 cfgDemo (aggregate talliesDemo 5)
    (runLoad_valid (by decide) envDemo 5)

/-- Claim C8: aggregation is order-independent — permuting the tally
sequence yields an identical RunReport. -/
theorem c8_aggregate_perm_invariant :
    ∀ (t t' : List WorkerTally) (elapsed : Nat),
      t.Perm t' → aggregate t elapsed = aggregate t' elapsed := by
  intro t t' e hp
  have ha : (t.map WorkerTally.attempted).sum =
      (t'.map WorkerTally.attempted).sum :=
    (hp.map WorkerTally.attempted).sum_eq
  have hs : (t.map WorkerTally.succeeded).sum =
      (t'.map WorkerTally.succeeded).sum :=
    (hp.map WorkerTally.succeeded).sum_eq
  have hf : (t.map WorkerTally.failed).sum = (t'.map WorkerTally.failed).sum :=
    (hp.map WorkerTally.failed).sum_eq
  have hk : ∀ k, (t.map fun x => x.failuresByKind k).sum =
      (t'.map fun x => x.failuresByKind k).sum :=
    fun k => (hp.map fun x => x.failuresByKind k).sum_eq
  have hfun : (fun k => (t.map fun x => x.failuresByKind k).sum) =
      (fun k => (t'.map fun x => x.failuresByKind k).sum) := funext hk
  unfold aggregate
  rw [ha, hs, hf, hfun]

/-- A tally with one success and one timeout failure. -/
def tallyA : WorkerTally :=
  { workerID := 0, attempted := 2, succeeded := 1, failed := 1,
    failuresByKind := fun k => if k = ErrorKind.Timeout then 1 else 0,
    totalLatency := 30 }

/-- A tally with two successes. -/
def tallyB : WorkerTally :=
  { workerID := 1, attempted := 2, succeeded := 2, failed := 0,
    failuresByKind := fun _ => 0, totalLatency := 20 }

/-- Witness for C8 on the concrete two-element tally list and its swap. -/
theorem c8_witness : aggregate [tallyA, tallyB] 5 = aggregate [tallyB, tallyA] 5 :=
  c8_aggregate_perm_invariant [tallyA, tallyB] [tallyB, tallyA] 5
    (List.Perm.swap tallyB tallyA [])

end Thor
